import Mathlib

/-!
Shallow embedding of the cafe-menu service (src/index.js): an Express app
exposing CRUD over a `Menu` table in Cloud Spanner.  Request-body fields are
modelled as JavaScript values (so that the code's `!x` falsy test and
`x == null` loose-null test can be distinguished), the store as a list of
rows, and each route handler as a pure function of the incoming request,
the store contents, and the outcome of each store interaction (transaction
commit / ad-hoc read), returning the HTTP status, the JSON response body,
the resulting store contents, and the trace of store operations performed.
-/

namespace CafeMenu

/-- A JavaScript value as it can appear in a parsed JSON request body field:
absent (`undefined` after destructuring), `null`, a string, a number, or a
boolean. -/
inductive JSVal where
  | undef : JSVal
  | null : JSVal
  | str : String → JSVal
  | num : Int → JSVal
  | bool : Bool → JSVal
deriving DecidableEq, Repr

/-- JavaScript truthiness test `!v`: `undefined`, `null`, the empty string,
`0` and `false` are falsy. -/
def isFalsy : JSVal → Bool
  | .undef => true
  | .null => true
  | .str s => s = ""
  | .num n => n = 0
  | .bool b => !b

/-- JavaScript loose-null test `v == null`: true exactly for `undefined`
and `null`. -/
def isNullish : JSVal → Bool
  | .undef => true
  | .null => true
  | _ => false

/-- The destructured request body `{ name, description, price, available }`
of a POST /menu or PUT /menu/:id request. -/
structure ReqBody where
  name : JSVal
  description : JSVal
  price : JSVal
  available : JSVal
deriving DecidableEq, Repr

/-- The validation check shared by the POST and PUT handlers, from
`if (!name || !description || price == null || available == null)`
(src/index.js lines 30 and 94): the body is valid when that condition is
false. -/
def validBody (b : ReqBody) : Bool :=
  !(isFalsy b.name || isFalsy b.description ||
    isNullish b.price || isNullish b.available)

/-- A row of the `Menu` table, with the store-native column names.
`CreatedAt` is assigned by the store's commit-time clock
(`PENDING_COMMIT_TIMESTAMP()`), modelled as a natural number. -/
structure Row where
  MenuId : String
  Name : JSVal
  Description : JSVal
  Price : JSVal
  Available : JSVal
  CreatedAt : Nat
deriving DecidableEq, Repr

/-- A menu item in the service's external field-naming convention, as it
appears in JSON responses. -/
structure MenuItemOut where
  menuId : String
  name : JSVal
  description : JSVal
  price : JSVal
  available : JSVal
  createdAt : Nat
deriving DecidableEq, Repr

/-- The fixed column-renaming table applied when a store row is returned to
the client (src/index.js lines 72-79 and 119-126): MenuId→menuId,
Name→name, Description→description, Price→price, Available→available,
CreatedAt→createdAt. -/
def rowToItem (r : Row) : MenuItemOut :=
  { menuId := r.MenuId
    name := r.Name
    description := r.Description
    price := r.Price
    available := r.Available
    createdAt := r.CreatedAt }

/-- A JSON response body produced by one of the handlers. -/
inductive RespBody where
  | item : MenuItemOut → RespBody
  | items : List MenuItemOut → RespBody
  | errJust : String → RespBody
  | errWith : String → String → RespBody
  | success : RespBody
deriving DecidableEq, Repr

/-- Outcome of a store interaction (a write transaction or an ad-hoc read):
it either succeeds or throws with an error message. -/
inductive Outcome where
  | ok : Outcome
  | fail : String → Outcome
deriving DecidableEq, Repr

/-- A store operation performed by a handler: opening (and attempting to
commit) a single-statement write transaction, or running an ad-hoc read
query. -/
inductive StoreOp where
  | txnWrite : StoreOp
  | readQuery : StoreOp
deriving DecidableEq, Repr

/-- The observable result of handling one HTTP request: status code, JSON
body, resulting store contents, and trace of store operations performed. -/
structure HandlerResult where
  status : Nat
  body : RespBody
  store : List Row
  ops : List StoreOp
deriving DecidableEq, Repr

/-- The POST /menu handler (src/index.js lines 26-60).  `menuId` is the
freshly minted uuid, `commitTs` the store's commit timestamp assigned to
`PENDING_COMMIT_TIMESTAMP()` if the transaction commits, and `appNow` the
application clock reading `new Date().toISOString()` used when the response
is constructed. -/
def postMenu (b : ReqBody) (menuId : String) (commitTs appNow : Nat)
    (st : List Row) (tx : Outcome) : HandlerResult :=
  if !validBody b then
    { status := 400, body := .errJust "Invalid input data", store := st, ops := [] }
  else
    match tx with
    | .fail msg =>
        { status := 500
          body := .errWith "Failed to create menu item" msg
          store := st
          ops := [.txnWrite] }
    | .ok =>
        { status := 201
          body := .item
            { menuId := menuId
              name := b.name
              description := b.description
              price := b.price
              available := b.available
              createdAt := appNow }
          store := st ++ [{ MenuId := menuId
                            Name := b.name
                            Description := b.description
                            Price := b.price
                            Available := b.available
                            CreatedAt := commitTs }]
          ops := [.txnWrite] }

/-- The ordering used by `SELECT * FROM Menu ORDER BY CreatedAt DESC`:
row `a` comes before row `b` when `a` is at least as new. -/
def createdGe (a b : Row) : Prop := b.CreatedAt ≤ a.CreatedAt

instance : DecidableRel createdGe := fun a b => Nat.decLe b.CreatedAt a.CreatedAt

instance : IsTotal Row createdGe :=
  ⟨fun a b => (Nat.le_total a.CreatedAt b.CreatedAt).symm⟩

instance : IsTrans Row createdGe :=
  ⟨fun _ _ _ hab hbc => Nat.le_trans hbc hab⟩

/-- The GET /menu handler (src/index.js lines 63-87): read all rows ordered
by CreatedAt descending and rename the columns. -/
def getMenu (st : List Row) (rd : Outcome) : HandlerResult :=
  match rd with
  | .fail msg =>
      { status := 500
        body := .errWith "Failed to fetch menu items" msg
        store := st
        ops := [.readQuery] }
  | .ok =>
      { status := 200
        body := .items ((st.insertionSort createdGe).map rowToItem)
        store := st
        ops := [.readQuery] }

/-- The effect on one row of the statement
`UPDATE Menu SET Name = @name, Description = @description, Price = @price,
Available = @available WHERE MenuId = @id` (src/index.js line 101): a row
whose MenuId matches gets the four mutable columns replaced; any other row
is untouched. -/
def updRow (id : String) (b : ReqBody) (r : Row) : Row :=
  if r.MenuId = id then
    { r with
      Name := b.name
      Description := b.description
      Price := b.price
      Available := b.available }
  else r

/-- The PUT /menu/:id handler (src/index.js lines 90-133): validate, run
the UPDATE in one transaction, then — outside the transaction — run the
point read `SELECT * FROM Menu WHERE MenuId = @id`; 404 on zero rows,
otherwise 200 with the first row renamed.  The catch block wraps both the
transaction and the read. -/
def putMenu (id : String) (b : ReqBody) (st : List Row)
    (tx rd : Outcome) : HandlerResult :=
  if !validBody b then
    { status := 400, body := .errJust "Invalid input data", store := st, ops := [] }
  else
    match tx with
    | .fail msg =>
        { status := 500
          body := .errWith "Failed to update menu item" msg
          store := st
          ops := [.txnWrite] }
    | .ok =>
        let st' := st.map (updRow id b)
        match rd with
        | .fail msg =>
            { status := 500
              body := .errWith "Failed to update menu item" msg
              store := st'
              ops := [.txnWrite, .readQuery] }
        | .ok =>
            match st'.filter (fun r => r.MenuId == id) with
            | [] =>
                { status := 404
                  body := .errJust "Menu item not found"
                  store := st'
                  ops := [.txnWrite, .readQuery] }
            | r :: _ =>
                { status := 200
                  body := .item (rowToItem r)
                  store := st'
                  ops := [.txnWrite, .readQuery] }

/-- The DELETE /menu/:id handler (src/index.js lines 136-154): run
`DELETE FROM Menu WHERE MenuId = @id` in one transaction and answer
`{success: true}`; no existence check of any kind. -/
def deleteMenu (id : String) (st : List Row) (tx : Outcome) : HandlerResult :=
  match tx with
  | .fail msg =>
      { status := 500
        body := .errWith "Failed to delete menu item" msg
        store := st
        ops := [.txnWrite] }
  | .ok =>
      { status := 200
        body := .success
        store := st.filter (fun r => r.MenuId != id)
        ops := [.txnWrite] }

/-- A concrete stored row used in concrete evaluations. -/
def rowA : Row :=
  { MenuId := "a"
    Name := .str "Latte"
    Description := .str "Hot milk coffee"
    Price := .num 450
    Available := .bool true
    CreatedAt := 5 }

/-- A second concrete stored row with a different id. -/
def rowC : Row :=
  { MenuId := "c"
    Name := .str "Mocha"
    Description := .str "Chocolate coffee"
    Price := .num 500
    Available := .bool true
    CreatedAt := 7 }

/-- A concrete valid request body used in concrete evaluations. -/
def bodyB : ReqBody :=
  { name := .str "Latte"
    description := .str "Hot milk coffee"
    price := .num 480
    available := .bool false }

theorem isFalsy_of_isNullish {v : JSVal} (h : isNullish v = true) :
    isFalsy v = true := by
  cases v <;> simp_all [isNullish, isFalsy]

theorem validBody_false_of_nullish (b : ReqBody)
    (h : isNullish b.name = true ∨ isNullish b.description = true ∨
         isNullish b.price = true ∨ isNullish b.available = true) :
    validBody b = false := by
  rcases h with h | h | h | h
  · simp [validBody, isFalsy_of_isNullish h]
  · simp [validBody, isFalsy_of_isNullish h]
  · simp [validBody, h]
  · simp [validBody, h]

/-- Claim C1: a POST /menu or PUT /menu/:id request whose body is missing
or null in any of the required fields name, description, price, available
gets HTTP 400 with the validation error body, leaves the store unchanged,
and performs no store operation at all: validation short-circuits before
any store interaction. -/
theorem c1_missing_or_null_short_circuits (b : ReqBody) (menuId id : String)
    (commitTs appNow : Nat) (st : List Row) (tx rd : Outcome)
    (h : isNullish b.name = true ∨ isNullish b.description = true ∨
         isNullish b.price = true ∨ isNullish b.available = true) :
    postMenu b menuId commitTs appNow st tx =
      { status := 400, body := .errJust "Invalid input data", store := st, ops := [] } ∧
    putMenu id b st tx rd =
      { status := 400, body := .errJust "Invalid input data", store := st, ops := [] } := by
  have hv : validBody b = false := validBody_false_of_nullish b h
  constructor <;> simp [postMenu, putMenu, hv]

theorem c1_witness :
    postMenu { name := .null, description := .str "d", price := .num 1,
               available := .bool true } "m" 0 0 [] .ok =
      { status := 400, body := .errJust "Invalid input data", store := [], ops := [] } ∧
    putMenu "i" { name := .null, description := .str "d", price := .num 1,
                  available := .bool true } [] .ok .ok =
      { status := 400, body := .errJust "Invalid input data", store := [], ops := [] } :=
  c1_missing_or_null_short_circuits _ "m" "i" 0 0 [] .ok .ok (Or.inl (by decide))

/-- Claim C2: on a PUT /menu/:id with valid body whose update transaction
commits and whose separate post-update point read succeeds, a read
returning zero rows yields HTTP 404 with an error body (no fabricated
item), and a read returning a row yields HTTP 200 with that row's fields
under the external names. -/
theorem c2_put_post_update_read (id : String) (b : ReqBody) (st : List Row)
    (hv : validBody b = true) :
    ((st.map (updRow id b)).filter (fun r => r.MenuId == id) = [] →
        putMenu id b st .ok .ok =
          { status := 404, body := .errJust "Menu item not found",
            store := st.map (updRow id b), ops := [.txnWrite, .readQuery] }) ∧
    (∀ r rest, (st.map (updRow id b)).filter (fun r => r.MenuId == id) = r :: rest →
        putMenu id b st .ok .ok =
          { status := 200, body := .item (rowToItem r),
            store := st.map (updRow id b), ops := [.txnWrite, .readQuery] }) := by
  constructor
  · intro hemp
    simp [putMenu, hv, hemp]
  · intro r rest hcons
    simp [putMenu, hv, hcons]

theorem c2_witness :
    putMenu "a" bodyB [] .ok .ok =
      { status := 404, body := .errJust "Menu item not found",
        store := [], ops := [.txnWrite, .readQuery] } ∧
    putMenu "a" bodyB [rowA] .ok .ok =
      { status := 200, body := .item (rowToItem (updRow "a" bodyB rowA)),
        store := [updRow "a" bodyB rowA], ops := [.txnWrite, .readQuery] } :=
  ⟨(c2_put_post_update_read "a" bodyB [] (by decide)).1 (by decide),
   (c2_put_post_update_read "a" bodyB [rowA] (by decide)).2
     (updRow "a" bodyB rowA) [] (by decide)⟩

/-- Claim C3: DELETE /menu/:id with a committing transaction answers
HTTP 200 with the success body for every id and store, with no existence
check, and deleting the same id twice leaves the store exactly as deleting
it once does. -/
theorem c3_delete_idempotent (id : String) (st : List Row) :
    (deleteMenu id st .ok).status = 200 ∧
    (deleteMenu id st .ok).body = .success ∧
    deleteMenu id (deleteMenu id st .ok).store .ok = deleteMenu id st .ok := by
  refine ⟨rfl, rfl, ?_⟩
  simp [deleteMenu, List.filter_filter]

/-- The boundary request body of claim C4: non-empty name and description,
price zero, available false. -/
def boundaryBody (n d : String) : ReqBody :=
  { name := .str n, description := .str d, price := .num 0, available := .bool false }

/-- Claim C4: with non-empty name and description, the boundary values
price = 0 and available = false pass validation (they are distinguished
from missing/null) and the request proceeds to the store: the POST handler
answers 201 and opens its write transaction, and the PUT handler performs
both its write transaction and its point read. -/
theorem c4_boundary_falsy_values_pass (n d menuId id : String)
    (commitTs appNow : Nat) (st : List Row) (hn : n ≠ "") (hd : d ≠ "") :
    validBody (boundaryBody n d) = true ∧
    (postMenu (boundaryBody n d) menuId commitTs appNow st .ok).status = 201 ∧
    (postMenu (boundaryBody n d) menuId commitTs appNow st .ok).ops = [.txnWrite] ∧
    (putMenu id (boundaryBody n d) st .ok .ok).ops = [.txnWrite, .readQuery] := by
  have hv : validBody (boundaryBody n d) = true := by
    simp [validBody, boundaryBody, isFalsy, isNullish, hn, hd]
  refine ⟨hv, ?_, ?_, ?_⟩
  · simp [postMenu, hv]
  · simp [postMenu, hv]
  · rcases hf : (st.map (updRow id (boundaryBody n d))).filter
        (fun r => r.MenuId == id) with _ | ⟨r, rest⟩ <;>
      simp [putMenu, hv, hf]

theorem c4_witness :
    validBody (boundaryBody "Latte" "Hot milk coffee") = true ∧
    (postMenu (boundaryBody "Latte" "Hot milk coffee") "m" 10 11 [] .ok).status = 201 ∧
    (postMenu (boundaryBody "Latte" "Hot milk coffee") "m" 10 11 [] .ok).ops = [.txnWrite] ∧
    (putMenu "a" (boundaryBody "Latte" "Hot milk coffee") [rowA] .ok .ok).ops =
      [.txnWrite, .readQuery] :=
  c4_boundary_falsy_values_pass "Latte" "Hot milk coffee" "m" "a" 10 11 [rowA]
    (by decide) (by decide)

/-- Claim C5: GET /menu with a successful read answers 200 with exactly the
store's rows, ordered by createdAt descending (the returned list is a
permutation of the store sorted by the descending-creation-time relation),
each translated by the fixed column renaming table. -/
theorem c5_list_sorted_renamed (st : List Row) :
    (getMenu st .ok).status = 200 ∧
    (getMenu st .ok).body = .items ((st.insertionSort createdGe).map rowToItem) ∧
    (st.insertionSort createdGe).Perm st ∧
    List.Sorted createdGe (st.insertionSort createdGe) ∧
    ∀ r : Row, rowToItem r =
      { menuId := r.MenuId, name := r.Name, description := r.Description,
        price := r.Price, available := r.Available, createdAt := r.CreatedAt } :=
  ⟨rfl, rfl, List.perm_insertionSort createdGe st,
   List.sorted_insertionSort createdGe st, fun _ => rfl⟩

/-- Claim C6: a valid POST /menu whose insert transaction commits answers
201 with the created item carrying the minted id, echoing the submitted
fields, and stamped with the application clock reading taken at response
construction (appNow), while the stored row instead carries the store's
commit timestamp (commitTs). -/
theorem c6_create_response (b : ReqBody) (menuId : String)
    (commitTs appNow : Nat) (st : List Row) (hv : validBody b = true) :
    postMenu b menuId commitTs appNow st .ok =
      { status := 201
        body := .item
          { menuId := menuId, name := b.name, description := b.description,
            price := b.price, available := b.available, createdAt := appNow }
        store := st ++ [{ MenuId := menuId, Name := b.name,
                          Description := b.description, Price := b.price,
                          Available := b.available, CreatedAt := commitTs }]
        ops := [.txnWrite] } := by
  simp [postMenu, hv]

theorem c6_witness :
    postMenu bodyB "m" 10 11 [] .ok =
      { status := 201
        body := .item
          { menuId := "m", name := bodyB.name, description := bodyB.description,
            price := bodyB.price, available := bodyB.available, createdAt := 11 }
        store := [{ MenuId := "m", Name := bodyB.name,
                    Description := bodyB.description, Price := bodyB.price,
                    Available := bodyB.available, CreatedAt := 10 }]
        ops := [.txnWrite] } :=
  c6_create_response bodyB "m" 10 11 [] (by decide)

/-- Claim C7: a valid PUT /menu/:id whose transaction commits leaves the
store with exactly the per-row update applied, and that update mutates
only the four mutable fields of rows matching the id: it preserves every
row's MenuId and CreatedAt, leaves rows with other ids completely
untouched, and rewrites only Name, Description, Price, Available on the
matching row. -/
theorem c7_update_frame (id : String) (b : ReqBody) (st : List Row)
    (rd : Outcome) (hv : validBody b = true) :
    (putMenu id b st .ok rd).store = st.map (updRow id b) ∧
    (∀ r : Row, (updRow id b r).MenuId = r.MenuId) ∧
    (∀ r : Row, (updRow id b r).CreatedAt = r.CreatedAt) ∧
    (∀ r : Row, r.MenuId ≠ id → updRow id b r = r) ∧
    (∀ r : Row, r.MenuId = id → updRow id b r =
      { r with Name := b.name, Description := b.description,
               Price := b.price, Available := b.available }) := by
  refine ⟨?_, ?_, ?_, ?_, ?_⟩
  · cases rd with
    | fail msg => simp [putMenu, hv]
    | ok =>
        rcases hf : (st.map (updRow id b)).filter
            (fun r => r.MenuId == id) with _ | ⟨r, rest⟩ <;>
          simp [putMenu, hv, hf]
  · intro r; unfold updRow; split <;> rfl
  · intro r; unfold updRow; split <;> rfl
  · intro r h; simp [updRow, h]
  · intro r h; simp [updRow, h]

theorem c7_witness :
    (putMenu "a" bodyB [rowA, rowC] .ok .ok).store = [rowA, rowC].map (updRow "a" bodyB) ∧
    (updRow "a" bodyB rowA).CreatedAt = rowA.CreatedAt ∧
    updRow "a" bodyB rowC = rowC :=
  ⟨(c7_update_frame "a" bodyB [rowA, rowC] .ok (by decide)).1,
   (c7_update_frame "a" bodyB [rowA, rowC] .ok (by decide)).2.2.1 rowA,
   (c7_update_frame "a" bodyB [rowA, rowC] .ok (by decide)).2.2.2.1 rowC (by decide)⟩

/-- Claim C8: for every operation, a store failure is caught at the handler
boundary and turned into HTTP 500 with the uniform error-and-details
envelope carrying the underlying message, and a failed write transaction
leaves the store completely unchanged. -/
theorem c8_storage_failure_envelope (b : ReqBody) (menuId id : String)
    (commitTs appNow : Nat) (st : List Row) (msg : String) (rd : Outcome)
    (hv : validBody b = true) :
    postMenu b menuId commitTs appNow st (.fail msg) =
      { status := 500, body := .errWith "Failed to create menu item" msg,
        store := st, ops := [.txnWrite] } ∧
    putMenu id b st (.fail msg) rd =
      { status := 500, body := .errWith "Failed to update menu item" msg,
        store := st, ops := [.txnWrite] } ∧
    deleteMenu id st (.fail msg) =
      { status := 500, body := .errWith "Failed to delete menu item" msg,
        store := st, ops := [.txnWrite] } ∧
    getMenu st (.fail msg) =
      { status := 500, body := .errWith "Failed to fetch menu items" msg,
        store := st, ops := [.readQuery] } := by
  refine ⟨?_, ?_, rfl, rfl⟩ <;> simp [postMenu, putMenu, hv]

theorem c8_witness :
    postMenu bodyB "m" 10 11 [rowA] (.fail "boom") =
      { status := 500, body := .errWith "Failed to create menu item" "boom",
        store := [rowA], ops := [.txnWrite] } ∧
    putMenu "a" bodyB [rowA] (.fail "boom") .ok =
      { status := 500, body := .errWith "Failed to update menu item" "boom",
        store := [rowA], ops := [.txnWrite] } ∧
    deleteMenu "a" [rowA] (.fail "boom") =
      { status := 500, body := .errWith "Failed to delete menu item" "boom",
        store := [rowA], ops := [.txnWrite] } ∧
    getMenu [rowA] (.fail "boom") =
      { status := 500, body := .errWith "Failed to fetch menu items" "boom",
        store := [rowA], ops := [.readQuery] } :=
  c8_storage_failure_envelope bodyB "m" "a" 10 11 [rowA] "boom" .ok (by decide)

/-- Claim C9: the code rejects all falsy values for name and description:
a POST /menu or PUT /menu/:id body whose name or description is the empty
string, the number 0, the boolean false, or null/undefined gets HTTP 400
with the store untouched and no store operation performed. -/
theorem c9_falsy_name_description_rejected (b : ReqBody) (menuId id : String)
    (commitTs appNow : Nat) (st : List Row) (tx rd : Outcome)
    (h : isFalsy b.name = true ∨ isFalsy b.description = true) :
    postMenu b menuId commitTs appNow st tx =
      { status := 400, body := .errJust "Invalid input data", store := st, ops := [] } ∧
    putMenu id b st tx rd =
      { status := 400, body := .errJust "Invalid input data", store := st, ops := [] } := by
  have hv : validBody b = false := by
    rcases h with h | h <;> simp [validBody, h]
  constructor <;> simp [postMenu, putMenu, hv]

theorem c9_witness :
    postMenu { name := .str "", description := .str "d", price := .num 1,
               available := .bool true } "m" 0 0 [] .ok =
      { status := 400, body := .errJust "Invalid input data", store := [], ops := [] } ∧
    putMenu "i" { name := .str "n", description := .num 0, price := .num 1,
                  available := .bool true } [] .ok .ok =
      { status := 400, body := .errJust "Invalid input data", store := [], ops := [] } :=
  ⟨(c9_falsy_name_description_rejected _ "m" "i" 0 0 [] .ok .ok (Or.inl (by decide))).1,
   (c9_falsy_name_description_rejected _ "m" "i" 0 0 [] .ok .ok (Or.inr (by decide))).2⟩

/-- Claim C10: on a valid PUT /menu/:id whose update transaction commits
but whose subsequent point read fails, the handler answers HTTP 500 with
the error envelope even though the committed update remains in the store:
the resulting store is the updated one, so a 500 on update does not imply
the store state is unchanged. -/
theorem c10_read_failure_after_commit (id : String) (b : ReqBody)
    (st : List Row) (msg : String) (hv : validBody b = true) :
    putMenu id b st .ok (.fail msg) =
      { status := 500, body := .errWith "Failed to update menu item" msg,
        store := st.map (updRow id b), ops := [.txnWrite, .readQuery] } := by
  simp [putMenu, hv]

theorem c10_witness :
    putMenu "a" bodyB [rowA] .ok (.fail "read failed") =
      { status := 500, body := .errWith "Failed to update menu item" "read failed",
        store := [rowA].map (updRow "a" bodyB), ops := [.txnWrite, .readQuery] } ∧
    [rowA].map (updRow "a" bodyB) ≠ [rowA] :=
  ⟨c10_read_failure_after_commit "a" bodyB [rowA] "read failed" (by decide), by decide⟩

end CafeMenu
